import Mathlib

/-!
# Transaction Orchestrator — verification development

A shallow embedding of the repository's transaction orchestrator.  The
repository ships the orchestrator's test suite
(`src/packages/medusa/src/utils/__tests__/transaction/transaction-orchestrator.ts`)
but the orchestrator implementation itself (`utils/transaction`) is not among
the repository's files, so the engine below is modelled from the
specification's description of it (flow DAG, traversal, retries,
compensation, response forwarding, async steps, external resume calls) and is
validated against the concrete scenarios the test file pins down.
-/

namespace Medusa

/-- Modelled from the spec: per-node lifecycle states of §3
(`nodeStates.state`). -/
inductive StepState where
  | IDLE
  | INVOKING
  | INVOKED_OK
  | INVOKE_FAILED
  | COMPENSATING
  | COMPENSATED
  | PERMANENT_FAILURE_SKIPPED
deriving DecidableEq, Repr

/-- Modelled from the spec: overall transaction status of §3. -/
inductive TxStatus where
  | NOT_STARTED
  | INVOKING
  | WAITING_TO_COMPENSATE
  | COMPENSATING
  | DONE
  | REVERTED
  | FAILED
deriving DecidableEq, Repr

/-- Modelled from the spec: the two handler types of §4.3. -/
inductive HandlerType where
  | INVOKE
  | COMPENSATE
deriving DecidableEq, Repr

/-- Modelled from the spec: the lowercase rendering of a handler type used in
`action_type` and in idempotency sub-keys (§6: "handlerType lowercased"). -/
def HandlerType.lowered : HandlerType → String
  | .INVOKE => "invoke"
  | .COMPENSATE => "compensate"

/-- A JSON-like value universe for payload `data`, handler responses and the
initial payload (the dynamic-language values the tests exchange). -/
inductive Value where
  | null
  | bool (b : Bool)
  | num (n : Int)
  | str (s : String)
  | obj (fields : List (String × Value))

/-- Modelled from the spec: the orchestrator's `DEFAULT_RETRIES` constant,
value 3 (§4.2, §6). -/
def DEFAULT_RETRIES : Nat := 3

/-- Modelled from the spec: one compiled DAG node (§3, §9): the flow compiler
turns the nested `next`-linked definition into nodes with parent links; the
node list is kept in the definition's preorder, which is the order each
scheduling pass uses.  Flags default as §3 states (`maxRetries`
`DEFAULT_RETRIES`, booleans false). -/
structure Node where
  action : String
  maxRetries : Nat := DEFAULT_RETRIES
  contOnFailure : Bool := false
  forwardResponse : Bool := false
  noWait : Bool := false
  isAsync : Bool := false
  parent : Option String := none

/-- Modelled from the spec: the orchestrator is constructed with
`(flowName, definition)` and holds the compiled DAG (§4.2). -/
structure Orchestrator where
  flowName : String
  flow : List Node

/-- Modelled from the spec: the metadata of every handler dispatch (§6).  The
`timestamp` field (epoch milliseconds, real time) is outside the model and
omitted. -/
structure Metadata where
  producer : String
  reply_to_topic : String
  idempotency_key : String
  action : String
  action_type : String
  attempt : Nat
deriving DecidableEq

/-- Modelled from the spec: the handler payload `{metadata, data}` (§6). -/
structure Payload where
  metadata : Metadata
  data : Value

/-- One recorded handler dispatch: the action, the handler type and the
payload the handler received. -/
structure Dispatch where
  action : String
  handlerType : HandlerType
  payload : Payload

/-- Outcome of one handler call: a returned value, or a thrown error (§4.3). -/
inductive HandlerResult where
  | ok (v : Value)
  | fail

/-- Modelled from the spec: the user-supplied handler
`(action, handlerType, payload)` (§4.3), deterministic in the model. -/
def Handler : Type := String → HandlerType → Payload → HandlerResult

/-- Modelled from the spec: the per-node record of `nodeStates` (§3):
lifecycle state, invoke attempt counter, last response. -/
structure NodeSt where
  state : StepState
  invokeAttempts : Nat
  response : Option Value

/-- The all-`IDLE`, zero-attempt node record `beginTransaction` starts every
node from. -/
def NodeSt.initial : NodeSt := ⟨.IDLE, 0, none⟩

/-- Modelled from the spec: the transaction state (§3), extended with the
run's observable history: `log` records every handler dispatch in order, and
`invokeOrder` records the actions in the order they reached `INVOKED_OK`
(the successful-invocation order compensation reverses, §4.2.2).
`failedAsync` records the actions of steps externally failed by
`registerStepFailure` while `INVOKING`: per scenario S10 (and the test it
comes from) such a step is itself a compensation candidate even though it
never reached `INVOKED_OK`.  `needsRevert` is the pending-compensation flag
a permanent failure sets. -/
structure Transaction where
  idempotencyKey : String
  initialPayload : Value
  status : TxStatus
  isPartiallyCompleted : Bool
  needsRevert : Bool
  states : String → NodeSt
  invokeOrder : List String
  failedAsync : List String
  log : List Dispatch

/-- Modelled from the spec: `getKeyName(idempotencyKey, action, handlerType)`
(§4.2, §6): `"<idempotencyKey>:<action>:<handlerType lowercased>"`. -/
def getKeyName (key action : String) (ht : HandlerType) : String :=
  key ++ ":" ++ action ++ ":" ++ ht.lowered

/-- Modelled from the spec: the payload of one dispatch (§6): producer is the
flow name, `reply_to_topic` is `"trans:" + flowName`, the idempotency sub-key
comes from `getKeyName`, `action_type` is the lowercased handler type. -/
def mkPayload (fname key action : String) (ht : HandlerType) (attempt : Nat)
    (data : Value) : Payload :=
  { metadata :=
      { producer := fname
        reply_to_topic := "trans:" ++ fname
        idempotency_key := getKeyName key action ht
        action := action
        action_type := ht.lowered
        attempt := attempt }
    data := data }

/-- Append one dispatch to the transaction's log. -/
def pushD (tx : Transaction) (d : Dispatch) : Transaction :=
  { tx with log := tx.log ++ [d] }

/-- Update the node record of one action. -/
def setNode (tx : Transaction) (a : String) (f : NodeSt → NodeSt) : Transaction :=
  { tx with states := fun b => if b = a then f (tx.states a) else tx.states b }

/-- Modelled from the spec: a successful invocation: state `INVOKED_OK`, the
response stored, and the action appended to the successful-invocation order
(§4.2.1 step 3). -/
def markOk (tx : Transaction) (a : String) (resp : Option Value) : Transaction :=
  { setNode tx a (fun st => { st with state := .INVOKED_OK, response := resp }) with
      invokeOrder := tx.invokeOrder ++ [a] }

/-- Modelled from the spec: retry exhaustion on a `continueOnPermanentFailure`
step: state `PERMANENT_FAILURE_SKIPPED` and `isPartiallyCompleted := true`
(§4.2.1 step 3). -/
def markSkipped (tx : Transaction) (a : String) : Transaction :=
  { setNode tx a (fun st => { st with state := .PERMANENT_FAILURE_SKIPPED }) with
      isPartiallyCompleted := true }

/-- Modelled from the spec: retry exhaustion on an ordinary step: state
`INVOKE_FAILED`, and the transaction must compensate (§4.2.1 step 3). -/
def markFailed (tx : Transaction) (a : String) : Transaction :=
  { setNode tx a (fun st => { st with state := .INVOKE_FAILED }) with
      needsRevert := true }

/-- Modelled from the spec: an external failure of an in-flight step
(`registerStepFailure` on an `INVOKING` node, §4.2 and scenario S10): the
node becomes `INVOKE_FAILED`, compensation is driven, and — as S10 and the
test pin — the failing step itself is recorded as a compensation candidate
(its compensate handler is dispatched even though it never reached
`INVOKED_OK`). -/
def markFailedExternal (tx : Transaction) (a : String) : Transaction :=
  { setNode tx a (fun st => { st with state := .INVOKE_FAILED }) with
      needsRevert := true
      failedAsync := tx.failedAsync ++ [a] }

/-- Modelled from the spec: `beginTransaction` allocates transaction state
with all nodes `IDLE` and status `NOT_STARTED`; it executes nothing (§4.2). -/
def beginTransaction (key : String) (p : Value) : Transaction :=
  { idempotencyKey := key
    initialPayload := p
    status := .NOT_STARTED
    isPartiallyCompleted := false
    needsRevert := false
    states := fun _ => NodeSt.initial
    invokeOrder := []
    failedAsync := []
    log := [] }

/-- Look a node up by action in the compiled DAG. -/
def findNode (flow : List Node) (a : String) : Option Node :=
  flow.find? (fun n => n.action == a)

/-- Modelled from the spec: the `data` of a dispatch (§6, §4.2.3): the
initial payload; when the node's parent carries `forwardResponse: true`, the
parent's `lastResponse` is merged in alongside under the reserved key
`_response`. -/
def mergeResponse (base r : Value) : Value :=
  match base with
  | .obj fs => .obj ((fs.filter fun kv => kv.1 != "_response") ++ [("_response", r)])
  | _ => .obj [("_response", r)]

/-- Build the `data` for one node's dispatch from the current transaction. -/
def buildData (o : Orchestrator) (tx : Transaction) (n : Node) : Value :=
  match n.parent with
  | none => tx.initialPayload
  | some p =>
    match findNode o.flow p with
    | some pn =>
      if pn.forwardResponse then
        match (tx.states p).response with
        | some r => mergeResponse tx.initialPayload r
        | none => tx.initialPayload
      else tx.initialPayload
    | none => tx.initialPayload

/-- Modelled from the spec: the payload of a node's next invoke attempt
(§6): the `attempt` counter is 1-based and increments on every retry. -/
def invokePayload (o : Orchestrator) (n : Node) (data : Value)
    (tx : Transaction) : Payload :=
  mkPayload o.flowName tx.idempotencyKey n.action .INVOKE
    ((tx.states n.action).invokeAttempts + 1) data

/-- Record one invoke dispatch of a node: the node enters `INVOKING`, its
attempt counter increments, and the dispatch is logged. -/
def logInvoke (o : Orchestrator) (n : Node) (data : Value)
    (tx : Transaction) : Transaction :=
  pushD
    (setNode tx n.action fun st =>
      { st with state := .INVOKING, invokeAttempts := st.invokeAttempts + 1 })
    ⟨n.action, .INVOKE, invokePayload o n data tx⟩

/-- Modelled from the spec: the invoke retry loop of one node (§4.2.1 step 3):
the handler is dispatched with a 1-based, incrementing `attempt`; on success
the node becomes `INVOKED_OK`; when the `1 + maxRetries` attempts are
exhausted the node permanently fails — skipped when
`continueOnPermanentFailure`, otherwise the transaction must compensate. -/
def invokeLoop (o : Orchestrator) (h : Handler) (n : Node) (data : Value) :
    Nat → Transaction → Transaction
  | 0, tx =>
    if n.contOnFailure then markSkipped tx n.action else markFailed tx n.action
  | fuel + 1, tx =>
    match h n.action .INVOKE (invokePayload o n data tx) with
    | .ok v => markOk (logInvoke o n data tx) n.action (some v)
    | .fail => invokeLoop o h n data fuel (logInvoke o n data tx)

/-- Modelled from the spec: dispatch one ready node (§4.2.1 steps 2, 3, 5):
only an `IDLE` node is dispatched; an `async` node's handler is invoked once
and its outcome ignored — the node stays `INVOKING` until an external signal;
every other node runs the invoke retry loop. -/
def dispatchNode (o : Orchestrator) (h : Handler) (n : Node)
    (tx : Transaction) : Transaction :=
  if (tx.states n.action).state = .IDLE then
    if n.isAsync then logInvoke o n (buildData o tx n) tx
    else invokeLoop o h n (buildData o tx n) (n.maxRetries + 1) tx
  else tx

/-- The children of an action in the compiled DAG, in definition order. -/
def childrenOf (o : Orchestrator) (a : String) : List Node :=
  o.flow.filter fun m => m.parent == some a

/-- Modelled from the spec: one scheduling pass (§4.2.1 steps 1, 2, 4 and
§9): the pass works through the ready nodes in definition order; when it
dispatches a `noWait` node it appends that node's children to the same pass,
so they run after the nodes already queued but before the next pass. -/
def runWorklist (o : Orchestrator) (h : Handler) :
    Nat → List Node → Transaction → Transaction
  | 0, _, tx => tx
  | _ + 1, [], tx => tx
  | fuel + 1, n :: rest, tx =>
    runWorklist o h fuel
      (if n.noWait then rest ++ childrenOf o n.action else rest)
      (dispatchNode o h n tx)

/-- Modelled from the spec: the ready set (§4.2.1): nodes that are `IDLE`
whose parent is `INVOKED_OK` or `PERMANENT_FAILURE_SKIPPED` (first-layer
nodes have no parent and are ready when `IDLE`), collected in definition
order. -/
def readyNodes (o : Orchestrator) (tx : Transaction) : List Node :=
  o.flow.filter fun n =>
    decide ((tx.states n.action).state = .IDLE) &&
      match n.parent with
      | none => true
      | some p =>
        decide ((tx.states p).state = .INVOKED_OK) ||
          decide ((tx.states p).state = .PERMANENT_FAILURE_SKIPPED)

/-- Does any node of the flow currently sit in `INVOKING` (an in-flight async
step)? -/
def anyInvoking (o : Orchestrator) (tx : Transaction) : Bool :=
  o.flow.any fun n => decide ((tx.states n.action).state = .INVOKING)

/-- Does any node of the flow currently sit in `COMPENSATING` (an in-flight
async compensation)? -/
def anyCompensating (o : Orchestrator) (tx : Transaction) : Bool :=
  o.flow.any fun n => decide ((tx.states n.action).state = .COMPENSATING)

/-- Modelled from the spec: one node entering compensation (§4.2.2). -/
def markCompensating (tx : Transaction) (a : String) : Transaction :=
  setNode tx a fun st => { st with state := .COMPENSATING }

/-- Modelled from the spec: one node's compensation confirmed (§4.2.2). -/
def markCompensated (tx : Transaction) (a : String) : Transaction :=
  setNode tx a fun st => { st with state := .COMPENSATED }

/-- Modelled from the spec: the payload of a node's compensate dispatch
(§4.2.2, §6): the `attempt` counter resets between `INVOKE` and
`COMPENSATE`. -/
def compPayload (o : Orchestrator) (a : String) (att : Nat) (data : Value)
    (tx : Transaction) : Payload :=
  mkPayload o.flowName tx.idempotencyKey a .COMPENSATE att data

/-- Record one compensate dispatch of a node in the log. -/
def logComp (o : Orchestrator) (a : String) (att : Nat) (data : Value)
    (tx : Transaction) : Transaction :=
  pushD tx ⟨a, .COMPENSATE, compPayload o a att data tx⟩

/-- Modelled from the spec: the compensate retry loop of one node (§4.2.2):
dispatched with `COMPENSATE` and a 1-based `attempt` that resets between
`INVOKE` and `COMPENSATE`; a compensate failure after retries makes the
transaction `FAILED`.  Returns the transaction and whether compensation may
continue with earlier nodes. -/
def compLoop (o : Orchestrator) (h : Handler) (n : Node) (data : Value) :
    Nat → Nat → Transaction → Transaction × Bool
  | 0, _, tx => ({ tx with status := .FAILED }, false)
  | fuel + 1, att, tx =>
    match h n.action .COMPENSATE (compPayload o n.action att data tx) with
    | .ok _ => (markCompensated (logComp o n.action att data tx) n.action, true)
    | .fail => compLoop o h n data fuel (att + 1) (logComp o n.action att data tx)

/-- Modelled from the spec: the compensation sweep (§4.2.2 and scenario
S10): it visits the compensation candidates — the successfully-invoked
actions, plus the steps externally failed while in flight (S10 pins that
such a failing step is itself compensated) — in reverse of the order they
ran, compensating each candidate still `INVOKED_OK` or `INVOKE_FAILED`; an
`async` node's compensation is dispatched once and then awaits an external
signal; when every candidate is settled and no compensation is in flight
the transaction is `REVERTED`. -/
def compGo (o : Orchestrator) (h : Handler) :
    List String → Transaction → Transaction
  | [], tx =>
    if anyCompensating o tx then tx else { tx with status := .REVERTED }
  | a :: rest, tx =>
    if (tx.states a).state = .INVOKED_OK ∨ (tx.states a).state = .INVOKE_FAILED then
      match findNode o.flow a with
      | some n =>
        if n.isAsync then
          logComp o a 1 (buildData o tx n) (markCompensating tx a)
        else
          match compLoop o h n (buildData o tx n) (n.maxRetries + 1) 1
              (markCompensating tx a) with
          | (tx1, true) => compGo o h rest tx1
          | (tx1, false) => tx1
      | none => compGo o h rest tx
    else compGo o h rest tx

/-- Modelled from the spec: entering compensation (§4.2.2): status becomes
`COMPENSATING` and the sweep walks the candidates (successful invocations
and externally-failed in-flight steps) in reverse. -/
def compensateRun (o : Orchestrator) (h : Handler) (tx : Transaction) :
    Transaction :=
  compGo o h (tx.invokeOrder ++ tx.failedAsync).reverse
    { tx with status := .COMPENSATING }

/-- A terminal transaction status (`DONE`, `REVERTED`, `FAILED`). -/
def isTerminal : TxStatus → Bool
  | .DONE | .REVERTED | .FAILED => true
  | _ => false

/-- Modelled from the spec: the traversal driver (§4.2.1): while the
transaction is not terminal it runs scheduling passes over the ready set;
when a permanent failure has flagged compensation it compensates (waiting,
as `WAITING_TO_COMPENSATE`, for any still-in-flight async step first); when
the ready set is empty it is `DONE` unless an async step is still in flight
(§4.2.1 steps 5, 6). -/
def resumeLoop (o : Orchestrator) (h : Handler) :
    Nat → Transaction → Transaction
  | 0, tx => tx
  | fuel + 1, tx =>
    if isTerminal tx.status then tx
    else if tx.needsRevert then
      if anyInvoking o tx then { tx with status := .WAITING_TO_COMPENSATE }
      else if tx.invokeOrder.isEmpty && tx.failedAsync.isEmpty then
        { tx with status := .FAILED }
      else compensateRun o h tx
    else
      if (readyNodes o tx).isEmpty then
        if anyInvoking o tx then tx else { tx with status := .DONE }
      else
        resumeLoop o h fuel
          (runWorklist o h (2 * o.flow.length + 1) (readyNodes o tx) tx)

/-- Fuel that bounds every run: each pass moves at least one node out of
`IDLE`, so `length + 2` loop iterations always reach quiescence. -/
def loopFuel (o : Orchestrator) : Nat := o.flow.length + 2

/-- Modelled from the spec: `resume(transaction)` (§4.2): drives execution
until terminal, blocked on an async step, or out of runnable work; a resume
of a terminal transaction is a no-op. -/
def resume (o : Orchestrator) (h : Handler) (tx : Transaction) : Transaction :=
  if isTerminal tx.status then tx
  else
    resumeLoop o h (loopFuel o)
      { tx with status := if tx.status = .NOT_STARTED then .INVOKING else tx.status }

/-- Modelled from the spec: the `keyIndex` lookup (§3, §9): resolve an
idempotency sub-key back to `(action, handler-type)` by matching
`getKeyName` over the flow's nodes. -/
def resolveKey (o : Orchestrator) (key subKey : String) :
    Option (String × HandlerType) :=
  o.flow.findSome? fun n =>
    if getKeyName key n.action .INVOKE == subKey then some (n.action, .INVOKE)
    else if getKeyName key n.action .COMPENSATE == subKey then
      some (n.action, .COMPENSATE)
    else none

/-- Modelled from the spec: `registerStepSuccess` (§4.2): the external
completion signal of an async step: an `INVOKING` node becomes `INVOKED_OK`
with the supplied response and traversal continues; a `COMPENSATING` node
becomes `COMPENSATED` and compensation continues. -/
def registerStepSuccess (o : Orchestrator) (h : Handler) (subKey : String)
    (resp : Option Value) (tx : Transaction) : Transaction :=
  match resolveKey o tx.idempotencyKey subKey with
  | none => tx
  | some (a, .INVOKE) =>
    if (tx.states a).state = .INVOKING then
      resumeLoop o h (loopFuel o) (markOk tx a resp)
    else tx
  | some (a, .COMPENSATE) =>
    if (tx.states a).state = .COMPENSATING then
      resumeLoop o h (loopFuel o) (markCompensated tx a)
    else tx

/-- Modelled from the spec: `registerStepFailure` (§4.2, §7, scenario S10):
it fails on an `IDLE` node with the literal message
`"Cannot set step failure when status is idle"` — the error carries the
transaction as the call leaves it, which is unchanged; on an `INVOKING` node
it records the permanent failure and drives compensation, in which — as S10
and the test pin — the externally failed step is itself a compensation
candidate (or it skips onward when `continueOnPermanentFailure`); an
externally failed compensation makes the transaction `FAILED`. -/
def registerStepFailure (o : Orchestrator) (h : Handler) (subKey : String)
    (tx : Transaction) : Except (String × Transaction) Transaction :=
  match resolveKey o tx.idempotencyKey subKey with
  | none => .ok tx
  | some (a, ht) =>
    if (tx.states a).state = .IDLE then
      .error ("Cannot set step failure when status is idle", tx)
    else
      match ht with
      | .INVOKE =>
        if (tx.states a).state = .INVOKING then
          match findNode o.flow a with
          | some n =>
            if n.contOnFailure then
              .ok (resumeLoop o h (loopFuel o) (markSkipped tx a))
            else .ok (resumeLoop o h (loopFuel o) (markFailedExternal tx a))
          | none => .ok tx
        else .ok tx
      | .COMPENSATE =>
        if (tx.states a).state = .COMPENSATING then
          .ok { tx with status := .FAILED }
        else .ok tx

/-- One external operation a caller may perform on a running transaction. -/
inductive Op where
  | resume
  | stepSuccess (subKey : String) (resp : Option Value)
  | stepFailure (subKey : String)

/-- The transaction a `registerStepFailure` call leaves the caller with: the
returned one on success, the error-carried one on rejection. -/
def carriedTx : Except (String × Transaction) Transaction → Transaction
  | .ok t => t
  | .error (_, t) => t

/-- Run one external operation; a rejected `registerStepFailure` leaves the
caller holding the transaction the error carries. -/
def execOp (o : Orchestrator) (h : Handler) (tx : Transaction) : Op → Transaction
  | .resume => resume o h tx
  | .stepSuccess k r => registerStepSuccess o h k r tx
  | .stepFailure k => carriedTx (registerStepFailure o h k tx)

/-- A run of the orchestrator: begin a transaction and perform any sequence
of external operations on it. -/
def execScript (o : Orchestrator) (h : Handler) (key : String) (p : Value)
    (ops : List Op) : Transaction :=
  ops.foldl (execOp o h) (beginTransaction key p)

/-! ## Observations on a run's dispatch log -/

/-- The actions of the `INVOKE` dispatches, in dispatch order. -/
def invokeActions (log : List Dispatch) : List String :=
  (log.filter fun d => decide (d.handlerType = .INVOKE)).map (·.action)

/-- How many times `(action, handlerType)` was dispatched. -/
def countDisp (log : List Dispatch) (a : String) (ht : HandlerType) : Nat :=
  (log.filter fun d => decide (d.action = a ∧ d.handlerType = ht)).length

/-- The `metadata.attempt` values of the `(action, handlerType)` dispatches,
in dispatch order. -/
def attemptsFor (log : List Dispatch) (a : String) (ht : HandlerType) : List Nat :=
  (log.filter fun d => decide (d.action = a ∧ d.handlerType = ht)).map
    (·.payload.metadata.attempt)

/-- How many `COMPENSATE` dispatches the log holds in total. -/
def compCount (log : List Dispatch) : Nat :=
  (log.filter fun d => decide (d.handlerType = .COMPENSATE)).length

/-- The `(action, data)` of each `INVOKE` dispatch, in dispatch order. -/
def invokeData (log : List Dispatch) : List (String × Value) :=
  (log.filter fun d => decide (d.handlerType = .INVOKE)).map
    fun d => (d.action, d.payload.data)

/-! ## The flows and handlers of the test scenarios -/

/-- The linear flow `firstMethod → secondMethod` of the test file (S1/S6). -/
def linearO : Orchestrator :=
  { flowName := "transaction-name"
    flow := [{ action := "firstMethod" },
             { action := "secondMethod", parent := some "firstMethod" }] }

/-- The parallel flow `[one, two→four→six, three→five]` of the test file
(S2), compiled in definition preorder. -/
def parallelO : Orchestrator :=
  { flowName := "transaction-name"
    flow := [{ action := "one" },
             { action := "two" },
             { action := "four", parent := some "two" },
             { action := "six", parent := some "four" },
             { action := "three" },
             { action := "five", parent := some "three" }] }

/-- The forwarding flow `firstMethod(fwd) → secondMethod(fwd) → thirdMethod`
of the test file (S4). -/
def forwardO : Orchestrator :=
  { flowName := "transaction-name"
    flow := [{ action := "firstMethod", forwardResponse := true },
             { action := "secondMethod", forwardResponse := true,
               parent := some "firstMethod" },
             { action := "thirdMethod", parent := some "secondMethod" }] }

/-- The noWait flow `[one→five, two(noWait)→four, three(maxRetries 0)]` of
the test file (S5). -/
def noWaitO : Orchestrator :=
  { flowName := "transaction-name"
    flow := [{ action := "one" },
             { action := "five", parent := some "one" },
             { action := "two", noWait := true },
             { action := "four", parent := some "two" },
             { action := "three", maxRetries := 0 }] }

/-- The continue-on-permanent-failure flow
`firstMethod → secondMethod(maxRetries 1, continueOnPermanentFailure)` of
the test file (S8). -/
def contO : Orchestrator :=
  { flowName := "transaction-name"
    flow := [{ action := "firstMethod" },
             { action := "secondMethod", maxRetries := 1,
               contOnFailure := true, parent := some "firstMethod" }] }

/-- The async flow `firstMethod(async) → secondMethod` of the test file
(S9/S10). -/
def asyncO : Orchestrator :=
  { flowName := "transaction-name"
    flow := [{ action := "firstMethod", isAsync := true },
             { action := "secondMethod", parent := some "firstMethod" }] }

/-- A handler that always succeeds (the recording handlers of S1/S2/S9). -/
def hOk : Handler := fun _ _ _ => .ok .null

/-- The S6/S8 handler: `secondMethod`'s INVOKE always throws, everything else
succeeds. -/
def hFailSecond : Handler := fun a ht _ =>
  if a = "secondMethod" ∧ ht = .INVOKE then .fail else .ok .null

/-- The S5 handler: `three`'s INVOKE always throws, everything else
succeeds. -/
def hFailThree : Handler := fun a ht _ =>
  if a = "three" ∧ ht = .INVOKE then .fail else .ok .null

/-- The S4 handler: each step returns the object the test's mocks return. -/
def hForward : Handler := fun a _ _ =>
  if a = "firstMethod" then .ok (.obj [("abc", .num 1234)])
  else if a = "secondMethod" then .ok (.obj [("def", .str "567")])
  else .ok (.obj [("end", .bool true)])

/-- The idempotency key every test supplies. -/
def testKey : String := "idempotency_key_123"

/-! ## The final transactions of the concrete scenarios -/

/-- S6 run: linear flow, `secondMethod` always throws, one `resume`. -/
def S6final : Transaction := resume linearO hFailSecond (beginTransaction testKey .null)

/-- S2 run: parallel flow, everything succeeds, one `resume`. -/
def S2final : Transaction := resume parallelO hOk (beginTransaction testKey .null)

/-- S4 run: forwarding flow with initial payload `{prop: 123}`. -/
def S4final : Transaction :=
  resume forwardO hForward (beginTransaction testKey (.obj [("prop", .num 123)]))

/-- S5 run: noWait flow, `three` always throws. -/
def S5final : Transaction := resume noWaitO hFailThree (beginTransaction testKey .null)

/-- S8 run: continue-on-permanent-failure flow, `secondMethod` always
throws. -/
def S8final : Transaction := resume contO hFailSecond (beginTransaction testKey .null)

/-- S9 run, first half: async flow after one `resume`. -/
def S9afterResume : Transaction := resume asyncO hOk (beginTransaction testKey .null)

/-- S9 run, second half: after `registerStepSuccess` on `firstMethod`'s
invoke sub-key. -/
def S9afterSuccess : Transaction :=
  registerStepSuccess asyncO hOk (getKeyName testKey "firstMethod" .INVOKE) none
    S9afterResume

/-- S10 run: same flow and first `resume` as S9; then the in-flight async
`firstMethod` is externally failed via `registerStepFailure` on its invoke
sub-key. -/
def S10afterFailure : Transaction :=
  carriedTx (registerStepFailure asyncO hOk (getKeyName testKey "firstMethod" .INVOKE)
    S9afterResume)

/-- S10 run, last step: `registerStepSuccess` on `firstMethod`'s compensate
sub-key confirms the compensation. -/
def S10afterComp : Transaction :=
  registerStepSuccess asyncO hOk (getKeyName testKey "firstMethod" .COMPENSATE) none
    S10afterFailure

/-! ## Run invariants -/

/-- The node states of a successfully-invoked, not-permanently-failed step:
`INVOKED_OK` and its compensation successors.  Every member of
`invokeOrder` sits in one of these states (`markOk`, the only way into
`invokeOrder`, sets `INVOKED_OK`); the converse does not hold, since an
externally failed step enters `COMPENSATING` from `INVOKE_FAILED`. -/
def okStateB : StepState → Bool
  | .INVOKED_OK | .COMPENSATING | .COMPENSATED => true
  | _ => false

/-- The §6 metadata contract of one dispatch against a flow name and an
idempotency key: producer, reply-to topic, mirrored action, lowercased
action type, `getKeyName` sub-key, and a 1-based attempt counter. -/
def DispatchOkB (fname key : String) (d : Dispatch) : Bool :=
  (d.payload.metadata.producer == fname) &&
    (d.payload.metadata.reply_to_topic == "trans:" ++ fname) &&
    (d.payload.metadata.action == d.action) &&
    (d.payload.metadata.action_type == d.handlerType.lowered) &&
    (d.payload.metadata.idempotency_key == getKeyName key d.action d.handlerType) &&
    decide (1 ≤ d.payload.metadata.attempt)

/-- The invariant every reachable transaction of a run satisfies: the key is
the one the transaction began with; every logged dispatch meets the §6
metadata contract; every `COMPENSATE` dispatch names a compensation
candidate — a successfully-invoked action or an externally-failed in-flight
step; every action in the successful-invocation order is in an
`okStateB` state; and `isPartiallyCompleted` holds exactly when some node
is `PERMANENT_FAILURE_SKIPPED`. -/
structure Inv (o : Orchestrator) (key : String) (tx : Transaction) : Prop where
  key_eq : tx.idempotencyKey = key
  log_ok : ∀ d ∈ tx.log, DispatchOkB o.flowName key d = true
  comp_ok : ∀ d ∈ tx.log, d.handlerType = .COMPENSATE →
    d.action ∈ tx.invokeOrder ∨ d.action ∈ tx.failedAsync
  order_ok : ∀ a ∈ tx.invokeOrder, okStateB (tx.states a).state = true
  skip_ok : tx.isPartiallyCompleted = true ↔
    ∃ a, (tx.states a).state = .PERMANENT_FAILURE_SKIPPED

end Medusa

namespace Medusa

/-! ## Invariant preservation lemmas -/

theorem okStateB_ne_skipped {s : StepState} (h : okStateB s = true) :
    s ≠ .PERMANENT_FAILURE_SKIPPED := by
  cases s <;> simp_all [okStateB]

theorem dispatchOk_mkPayload (fname key a : String) (ht : HandlerType)
    (att : Nat) (hatt : 1 ≤ att) (data : Value) :
    DispatchOkB fname key ⟨a, ht, mkPayload fname key a ht att data⟩ = true := by
  simp [DispatchOkB, mkPayload, hatt]

theorem inv_congr {o : Orchestrator} {key : String} {tx tx' : Transaction}
    (H : Inv o key tx)
    (h1 : tx'.idempotencyKey = tx.idempotencyKey)
    (h2 : tx'.log = tx.log)
    (h3 : tx'.invokeOrder = tx.invokeOrder)
    (h4 : tx'.states = tx.states)
    (h5 : tx'.isPartiallyCompleted = tx.isPartiallyCompleted)
    (h6 : tx'.failedAsync = tx.failedAsync) :
    Inv o key tx' := by
  obtain ⟨k, l, c, r, s⟩ := H
  refine ⟨h1.trans k, ?_, ?_, ?_, ?_⟩
  · rw [h2]; exact l
  · rw [h2, h3, h6]; exact c
  · rw [h3, h4]; exact r
  · rw [h5, h4]; exact s

theorem inv_begin (o : Orchestrator) (key : String) (p : Value) :
    Inv o key (beginTransaction key p) := by
  refine ⟨rfl, ?_, ?_, ?_, ?_⟩
  · intro d hd; simp [beginTransaction] at hd
  · intro d hd; simp [beginTransaction] at hd
  · intro a ha; simp [beginTransaction] at ha
  · simp [beginTransaction, NodeSt.initial]

theorem inv_pushD {o : Orchestrator} {key : String} {tx : Transaction}
    (d : Dispatch) (H : Inv o key tx)
    (hd : DispatchOkB o.flowName key d = true)
    (hc : d.handlerType = .COMPENSATE →
      d.action ∈ tx.invokeOrder ∨ d.action ∈ tx.failedAsync) :
    Inv o key (pushD tx d) := by
  obtain ⟨k, l, c, r, s⟩ := H
  refine ⟨k, ?_, ?_, r, s⟩
  · intro e he
    rcases List.mem_append.mp he with h | h
    · exact l e h
    · rw [List.mem_singleton.mp h]; exact hd
  · intro e he hce
    rcases List.mem_append.mp he with h | h
    · exact c e h hce
    · rw [List.mem_singleton.mp h] at hce ⊢; exact hc hce

theorem inv_setNode {o : Orchestrator} {key : String} {tx : Transaction}
    {a : String} {f : NodeSt → NodeSt} (H : Inv o key tx)
    (hok : okStateB (f (tx.states a)).state = okStateB (tx.states a).state)
    (hsk : ((f (tx.states a)).state = .PERMANENT_FAILURE_SKIPPED) ↔
      ((tx.states a).state = .PERMANENT_FAILURE_SKIPPED)) :
    Inv o key (setNode tx a f) := by
  obtain ⟨k, l, c, r, s⟩ := H
  refine ⟨k, l, c, ?_, ?_⟩
  · intro b hb
    by_cases hbe : b = a
    · subst hbe; simpa [setNode, hok] using r b hb
    · simpa [setNode, hbe] using r b hb
  · have he : (setNode tx a f).isPartiallyCompleted = tx.isPartiallyCompleted := rfl
    rw [he, s]
    exact exists_congr fun b => by
      by_cases hbe : b = a
      · subst hbe; simp [setNode, hsk]
      · simp [setNode, hbe]

theorem inv_setNodeOk {o : Orchestrator} {key : String} {tx : Transaction}
    {a : String} {f : NodeSt → NodeSt} (H : Inv o key tx)
    (hok : okStateB (f (tx.states a)).state = true)
    (hsk1 : (f (tx.states a)).state ≠ .PERMANENT_FAILURE_SKIPPED)
    (hsk2 : (tx.states a).state ≠ .PERMANENT_FAILURE_SKIPPED) :
    Inv o key (setNode tx a f) := by
  obtain ⟨k, l, c, r, s⟩ := H
  refine ⟨k, l, c, ?_, ?_⟩
  · intro b hb
    by_cases hbe : b = a
    · subst hbe; simpa [setNode] using hok
    · simpa [setNode, hbe] using r b hb
  · have he : (setNode tx a f).isPartiallyCompleted = tx.isPartiallyCompleted := rfl
    rw [he, s]
    exact exists_congr fun b => by
      by_cases hbe : b = a
      · subst hbe; simp [setNode, hsk1, hsk2]
      · simp [setNode, hbe]

theorem inv_markOk {o : Orchestrator} {key : String} {tx : Transaction}
    {a : String} (resp : Option Value) (H : Inv o key tx)
    (hok : okStateB (tx.states a).state = false)
    (hsk : (tx.states a).state ≠ .PERMANENT_FAILURE_SKIPPED) :
    Inv o key (markOk tx a resp) := by
  obtain ⟨k, l, c, r, s⟩ := H
  refine ⟨k, l, ?_, ?_, ?_⟩
  · intro d hd hcd
    rcases c d hd hcd with hm | hm
    · exact Or.inl (List.mem_append_left _ hm)
    · exact Or.inr hm
  · intro b hb
    by_cases hbe : b = a
    · subst hbe; simp [markOk, setNode, okStateB]
    · rcases List.mem_append.mp hb with hm | hm
      · simpa [markOk, setNode, hbe] using r b hm
      · exact absurd (List.mem_singleton.mp hm) hbe
  · have he : (markOk tx a resp).isPartiallyCompleted = tx.isPartiallyCompleted := rfl
    rw [he, s]
    exact exists_congr fun b => by
      by_cases hbe : b = a
      · subst hbe; simp [markOk, setNode, hsk]
      · simp [markOk, setNode, hbe]

theorem inv_markSkipped {o : Orchestrator} {key : String} {tx : Transaction}
    {a : String} (H : Inv o key tx)
    (hok : okStateB (tx.states a).state = false) :
    Inv o key (markSkipped tx a) := by
  obtain ⟨k, l, c, r, s⟩ := H
  have hnot : a ∉ tx.invokeOrder := fun hmem => by
    have := r a hmem
    rw [hok] at this
    exact Bool.false_ne_true this
  refine ⟨k, l, c, ?_, ?_⟩
  · intro b hb
    by_cases hbe : b = a
    · subst hbe; exact absurd hb hnot
    · simpa [markSkipped, setNode, hbe] using r b hb
  · exact ⟨fun _ => ⟨a, by simp [markSkipped, setNode]⟩, fun _ => rfl⟩

theorem inv_markFailed {o : Orchestrator} {key : String} {tx : Transaction}
    {a : String} (H : Inv o key tx)
    (hok : okStateB (tx.states a).state = false)
    (hsk : (tx.states a).state ≠ .PERMANENT_FAILURE_SKIPPED) :
    Inv o key (markFailed tx a) := by
  have H1 : Inv o key (setNode tx a fun st => { st with state := .INVOKE_FAILED }) :=
    inv_setNode H (by rw [hok]; rfl) (by simp [hsk])
  exact inv_congr H1 rfl rfl rfl rfl rfl rfl

theorem inv_markFailedExternal {o : Orchestrator} {key : String}
    {tx : Transaction} {a : String} (H : Inv o key tx)
    (hok : okStateB (tx.states a).state = false)
    (hsk : (tx.states a).state ≠ .PERMANENT_FAILURE_SKIPPED) :
    Inv o key (markFailedExternal tx a) := by
  obtain ⟨k, l, c, r, s⟩ := H
  refine ⟨k, l, ?_, ?_, ?_⟩
  · intro d hd hcd
    rcases c d hd hcd with hm | hm
    · exact Or.inl hm
    · exact Or.inr (List.mem_append_left _ hm)
  · intro b hb
    by_cases hbe : b = a
    · subst hbe
      exact absurd (r b hb) (by rw [hok]; simp)
    · simpa [markFailedExternal, setNode, hbe] using r b hb
  · have he : (markFailedExternal tx a).isPartiallyCompleted =
        tx.isPartiallyCompleted := rfl
    rw [he, s]
    exact exists_congr fun b => by
      by_cases hbe : b = a
      · subst hbe; simp [markFailedExternal, setNode, hsk]
      · simp [markFailedExternal, setNode, hbe]

theorem logInvoke_state (o : Orchestrator) (n : Node) (data : Value)
    (tx : Transaction) :
    ((logInvoke o n data tx).states n.action).state = .INVOKING := by
  simp [logInvoke, pushD, setNode]

theorem inv_logInvoke {o : Orchestrator} {key : String} {tx : Transaction}
    {n : Node} (data : Value) (H : Inv o key tx)
    (hst : (tx.states n.action).state = .INVOKING ∨
      (tx.states n.action).state = .IDLE) :
    Inv o key (logInvoke o n data tx) := by
  have H1 : Inv o key (setNode tx n.action fun st =>
      { st with state := .INVOKING, invokeAttempts := st.invokeAttempts + 1 }) :=
    inv_setNode H (by rcases hst with h1 | h1 <;> simp [okStateB, h1])
      (by rcases hst with h1 | h1 <;> simp [h1])
  refine inv_pushD _ H1 ?_ fun hcc => HandlerType.noConfusion hcc
  have hk : tx.idempotencyKey = key := H.key_eq
  rw [invokePayload, hk]
  exact dispatchOk_mkPayload _ _ _ _ _ (Nat.succ_le_succ (Nat.zero_le _)) _

theorem inv_invokeLoop (o : Orchestrator) (key : String) (h : Handler)
    (n : Node) (data : Value) :
    ∀ fuel (tx : Transaction), Inv o key tx →
      ((tx.states n.action).state = .INVOKING ∨
        (tx.states n.action).state = .IDLE) →
      Inv o key (invokeLoop o h n data fuel tx)
  | 0, tx, H, hst => by
    rw [invokeLoop]
    split
    · exact inv_markSkipped H (by rcases hst with h1 | h1 <;> simp [okStateB, h1])
    · exact inv_markFailed H (by rcases hst with h1 | h1 <;> simp [okStateB, h1])
        (by rcases hst with h1 | h1 <;> simp [h1])
  | fuel + 1, tx, H, hst => by
    rw [invokeLoop]
    split
    · exact inv_markOk _ (inv_logInvoke data H hst)
        (by rw [logInvoke_state]; rfl) (by rw [logInvoke_state]; simp)
    · exact inv_invokeLoop o key h n data fuel _ (inv_logInvoke data H hst)
        (Or.inl (logInvoke_state o n data tx))

theorem inv_dispatchNode (o : Orchestrator) (key : String) (h : Handler)
    (n : Node) {tx : Transaction} (H : Inv o key tx) :
    Inv o key (dispatchNode o h n tx) := by
  rw [dispatchNode]
  split
  · split
    · exact inv_logInvoke _ H (Or.inr ‹_›)
    · exact inv_invokeLoop o key h n _ _ tx H (Or.inr ‹_›)
  · exact H

theorem inv_runWorklist (o : Orchestrator) (key : String) (h : Handler) :
    ∀ fuel (wl : List Node) (tx : Transaction), Inv o key tx →
      Inv o key (runWorklist o h fuel wl tx)
  | 0, _, _, H => H
  | _ + 1, [], _, H => H
  | fuel + 1, n :: rest, tx, H => by
    rw [runWorklist]
    exact inv_runWorklist o key h fuel _ _ (inv_dispatchNode o key h n H)

theorem findNode_action {flow : List Node} {a : String} {n : Node}
    (hf : findNode flow a = some n) : n.action = a := by
  rw [findNode] at hf
  have := List.find?_some hf
  simpa using this

theorem compLoop_lists (o : Orchestrator) (h : Handler) (n : Node)
    (data : Value) :
    ∀ fuel att (tx : Transaction),
      (compLoop o h n data fuel att tx).1.invokeOrder = tx.invokeOrder ∧
      (compLoop o h n data fuel att tx).1.failedAsync = tx.failedAsync
  | 0, _, _ => ⟨rfl, rfl⟩
  | fuel + 1, att, tx => by
    rw [compLoop]
    split
    · exact ⟨rfl, rfl⟩
    · exact compLoop_lists o h n data fuel (att + 1) (logComp o n.action att data tx)

theorem inv_compLoop (o : Orchestrator) (key : String) (h : Handler) (n : Node)
    (data : Value) :
    ∀ fuel att (tx : Transaction), Inv o key tx → 1 ≤ att →
      (n.action ∈ tx.invokeOrder ∨ n.action ∈ tx.failedAsync) →
      okStateB (tx.states n.action).state = true →
      Inv o key (compLoop o h n data fuel att tx).1
  | 0, _, tx, H, _, _, _ => inv_congr H rfl rfl rfl rfl rfl rfl
  | fuel + 1, att, tx, H, hatt, hmem, hokst => by
    rw [compLoop]
    have HL : Inv o key (logComp o n.action att data tx) := by
      refine inv_pushD _ H ?_ fun _ => hmem
      have hk : tx.idempotencyKey = key := H.key_eq
      rw [compPayload, hk]
      exact dispatchOk_mkPayload _ _ _ _ _ hatt _
    split
    · have HS : Inv o key (setNode (logComp o n.action att data tx) n.action
          (fun st => { st with state := .COMPENSATED })) :=
        inv_setNode HL (by rw [show ((logComp o n.action att data tx).states
            n.action).state = (tx.states n.action).state from rfl, hokst]; rfl)
          (by simp [show ((logComp o n.action att data tx).states n.action).state =
            (tx.states n.action).state from rfl, okStateB_ne_skipped hokst])
      exact HS
    · exact inv_compLoop o key h n data fuel (att + 1) _ HL
        (Nat.le_succ_of_le hatt) hmem hokst

theorem inv_compGo (o : Orchestrator) (key : String) (h : Handler) :
    ∀ (pend : List String) (tx : Transaction), Inv o key tx →
      (∀ b ∈ pend, b ∈ tx.invokeOrder ∨ b ∈ tx.failedAsync) →
      Inv o key (compGo o h pend tx)
  | [], tx, H, _ => by
    rw [compGo]
    split
    · exact H
    · exact inv_congr H rfl rfl rfl rfl rfl rfl
  | a :: rest, tx, H, hsub => by
    have hsubRest : ∀ b ∈ rest, b ∈ tx.invokeOrder ∨ b ∈ tx.failedAsync :=
      fun b hb => hsub b (List.mem_cons_of_mem a hb)
    rw [compGo]
    split
    · rename_i hok
      have hmemD : a ∈ tx.invokeOrder ∨ a ∈ tx.failedAsync :=
        hsub a (List.mem_cons_self a rest)
      split
      · rename_i n hfind
        have haction : n.action = a := findNode_action hfind
        have HM : Inv o key (markCompensating tx a) :=
          inv_setNodeOk H rfl (by simp)
            (by rcases hok with h1 | h1 <;> simp [h1])
        split
        · refine inv_pushD _ HM ?_ fun _ => hmemD
          have hk : (markCompensating tx a).idempotencyKey = key := HM.key_eq
          rw [compPayload, hk]
          exact dispatchOk_mkPayload _ _ _ _ _ (Nat.le_refl 1) _
        · have HC : Inv o key (compLoop o h n (buildData o tx n)
              (n.maxRetries + 1) 1 (markCompensating tx a)).1 := by
            refine inv_compLoop o key h n _ _ _ _ HM (Nat.le_refl 1) ?_ ?_
            · rw [haction]; exact hmemD
            · rw [haction]
              simp [markCompensating, setNode, okStateB]
          obtain ⟨e1, e2⟩ := compLoop_lists o h n (buildData o tx n)
            (n.maxRetries + 1) 1 (markCompensating tx a)
          rcases hcl : compLoop o h n (buildData o tx n) (n.maxRetries + 1) 1
              (markCompensating tx a) with ⟨tx1, flag⟩
          rw [hcl] at HC e1 e2
          cases flag
          · exact HC
          · refine inv_compGo o key h rest tx1 HC fun b hb => ?_
            rw [e1, e2]
            exact hsubRest b hb
      · exact inv_compGo o key h rest tx H hsubRest
    · exact inv_compGo o key h rest tx H hsubRest

theorem inv_compensateRun (o : Orchestrator) (key : String) (h : Handler)
    {tx : Transaction} (H : Inv o key tx) :
    Inv o key (compensateRun o h tx) := by
  rw [compensateRun]
  refine inv_compGo o key h _ _ (inv_congr H rfl rfl rfl rfl rfl rfl)
    fun b hb => ?_
  exact List.mem_append.mp (List.mem_reverse.mp hb)

theorem inv_resumeLoop (o : Orchestrator) (key : String) (h : Handler) :
    ∀ fuel (tx : Transaction), Inv o key tx → Inv o key (resumeLoop o h fuel tx)
  | 0, _, H => H
  | fuel + 1, tx, H => by
    rw [resumeLoop]
    split
    · exact H
    · split
      · split
        · exact inv_congr H rfl rfl rfl rfl rfl rfl
        · split
          · exact inv_congr H rfl rfl rfl rfl rfl rfl
          · exact inv_compensateRun o key h H
      · split
        · split
          · exact H
          · exact inv_congr H rfl rfl rfl rfl rfl rfl
        · exact inv_resumeLoop o key h fuel _
            (inv_runWorklist o key h _ _ _ H)

theorem inv_resume (o : Orchestrator) (key : String) (h : Handler)
    {tx : Transaction} (H : Inv o key tx) : Inv o key (resume o h tx) := by
  rw [resume]
  split
  · exact H
  · exact inv_resumeLoop o key h _ _ (inv_congr H rfl rfl rfl rfl rfl rfl)

theorem inv_registerStepSuccess (o : Orchestrator) (key : String) (h : Handler)
    (subKey : String) (resp : Option Value) {tx : Transaction}
    (H : Inv o key tx) :
    Inv o key (registerStepSuccess o h subKey resp tx) := by
  rw [registerStepSuccess]
  split
  · exact H
  · split
    · rename_i hinv
      exact inv_resumeLoop o key h _ _
        (inv_markOk _ H (by rw [hinv]; rfl) (by simp [hinv]))
    · exact H
  · split
    · rename_i hcomp
      exact inv_resumeLoop o key h _ _
        (inv_setNode H (by rw [hcomp]; rfl) (by simp [hcomp]))
    · exact H

theorem inv_stepFailureCarried (o : Orchestrator) (key : String) (h : Handler)
    (subKey : String) {tx : Transaction} (H : Inv o key tx) :
    Inv o key (carriedTx (registerStepFailure o h subKey tx)) := by
  rw [registerStepFailure]
  split
  · exact H
  · split
    · exact H
    · split
      · split
        · rename_i hinv
          split
          · split
            · exact inv_resumeLoop o key h _ _
                (inv_markSkipped H (by rw [hinv]; rfl))
            · exact inv_resumeLoop o key h _ _
                (inv_markFailedExternal H (by rw [hinv]; rfl) (by simp [hinv]))
          · exact H
        · exact H
      · split
        · exact inv_congr H rfl rfl rfl rfl rfl rfl
        · exact H

theorem inv_execOp (o : Orchestrator) (key : String) (h : Handler)
    {tx : Transaction} (H : Inv o key tx) (op : Op) :
    Inv o key (execOp o h tx op) := by
  cases op with
  | resume => exact inv_resume o key h H
  | stepSuccess k r => exact inv_registerStepSuccess o key h k r H
  | stepFailure k => exact inv_stepFailureCarried o key h k H

theorem inv_foldl (o : Orchestrator) (key : String) (h : Handler) :
    ∀ (ops : List Op) (tx : Transaction), Inv o key tx →
      Inv o key (ops.foldl (execOp o h) tx)
  | [], _, H => H
  | op :: ops, _, H => inv_foldl o key h ops _ (inv_execOp o key h H op)

theorem inv_execScript (o : Orchestrator) (h : Handler) (key : String)
    (p : Value) (ops : List Op) : Inv o key (execScript o h key p ops) :=
  inv_foldl o key h ops _ (inv_begin o key p)

/-! ## The claims -/

/-- C1 counterexample: the claim as stated is false on the program's own
S10 path.  In the S10 run (`firstMethod(async) → secondMethod`, `resume`,
then `registerStepFailure` on `firstMethod`'s invoke sub-key) the
transaction enters compensation with `invokeOrder = []` — the model's
record of `INVOKED_OK` transitions, so no node ever reached `INVOKED_OK` —
yet the failing step `firstMethod` itself is dispatched exactly once with
`COMPENSATE`, the transaction sits in `COMPENSATING`, and confirming that
compensation yields `REVERTED`, exactly as the repository's test pins. -/
theorem compensation_only_for_invoked_ok_counterexample :
    S10afterFailure.invokeOrder = [] ∧
    countDisp S10afterFailure.log "firstMethod" .INVOKE = 1 ∧
    countDisp S10afterFailure.log "firstMethod" .COMPENSATE = 1 ∧
    compCount S10afterFailure.log = 1 ∧
    (S10afterFailure.states "firstMethod").state = .COMPENSATING ∧
    S10afterFailure.status = .COMPENSATING ∧
    S10afterComp.status = .REVERTED :=
  ⟨rfl, rfl, rfl, rfl, rfl, rfl, rfl⟩

/-- C1 (amended): in every run (any flow, handler, initial payload and
sequence of external operations), every `COMPENSATE` dispatch names a
compensation candidate: an action that reached `INVOKED_OK`
(`invokeOrder`) or a step externally failed by `registerStepFailure` while
in flight (`failedAsync`, the S10 path, where the failing step is itself
compensated); steps that never ran, exhausted their retries synchronously,
or were `PERMANENT_FAILURE_SKIPPED` are never compensated; and a run in
which no node reached `INVOKED_OK` and none was externally failed performs
zero compensate dispatches. -/
theorem compensation_only_for_invoked_or_externally_failed (o : Orchestrator)
    (h : Handler) (key : String) (p : Value) (ops : List Op) :
    ((execScript o h key p ops).log.all fun d =>
        !(decide (d.handlerType = .COMPENSATE)) ||
          (decide (d.action ∈ (execScript o h key p ops).invokeOrder) ||
            decide (d.action ∈ (execScript o h key p ops).failedAsync))) = true ∧
    (!(decide ((execScript o h key p ops).invokeOrder = [] ∧
          (execScript o h key p ops).failedAsync = [])) ||
        (execScript o h key p ops).log.all fun d =>
          !(decide (d.handlerType = .COMPENSATE))) = true := by
  have H := inv_execScript o h key p ops
  constructor
  · rw [List.all_eq_true]
    intro d hd
    by_cases hc : d.handlerType = .COMPENSATE
    · rcases H.comp_ok d hd hc with hm | hm <;> simp [hc, hm]
    · simp [hc]
  · by_cases he : (execScript o h key p ops).invokeOrder = [] ∧
        (execScript o h key p ops).failedAsync = []
    · have hno : ∀ d ∈ (execScript o h key p ops).log,
          ¬d.handlerType = .COMPENSATE := by
        intro d hd hc
        rcases H.comp_ok d hd hc with hm | hm
        · rw [he.1] at hm; exact absurd hm (List.not_mem_nil _)
        · rw [he.2] at hm; exact absurd hm (List.not_mem_nil _)
      simp only [Bool.or_eq_true, List.all_eq_true]
      exact Or.inr fun d hd => by simp [hno d hd]
    · simp [he]

/-- C2: in every run, every handler dispatch carries metadata whose producer
is the flow name, whose `reply_to_topic` is `"trans:" + flowName`, whose
`action_type` is the lowercased handler type, whose attempt counter is
1-based, and whose `idempotency_key` is
`getKeyName(transaction.idempotencyKey, action, handlerType)`; and
`getKeyName` is exactly `"<idempotencyKey>:<action>:<handlerType lowercased>"`. -/
theorem dispatch_metadata_contract (o : Orchestrator) (h : Handler)
    (key : String) (p : Value) (ops : List Op) :
    (execScript o h key p ops).log.all (DispatchOkB o.flowName key) = true ∧
    ∀ (k a : String) (ht : HandlerType),
      getKeyName k a ht = k ++ ":" ++ a ++ ":" ++ ht.lowered := by
  refine ⟨?_, fun k a ht => rfl⟩
  rw [List.all_eq_true]
  exact (inv_execScript o h key p ops).log_ok

/-- C3: in the S6 scenario (linear `firstMethod → secondMethod`,
`secondMethod`'s INVOKE always throws), `resume` dispatches `firstMethod`'s
INVOKE once, `secondMethod`'s INVOKE `1 + DEFAULT_RETRIES = 4` times with
attempts 1, 2, 3, 4, `firstMethod`'s COMPENSATE once (and no other
compensation), and ends `REVERTED`; `resume` is a total function in the
model, returning the terminal transaction rather than throwing. -/
theorem retries_then_compensation_scenario :
    invokeActions S6final.log =
      ["firstMethod", "secondMethod", "secondMethod", "secondMethod",
        "secondMethod"] ∧
    countDisp S6final.log "secondMethod" .INVOKE = 1 + DEFAULT_RETRIES ∧
    attemptsFor S6final.log "secondMethod" .INVOKE = [1, 2, 3, 4] ∧
    countDisp S6final.log "firstMethod" .COMPENSATE = 1 ∧
    compCount S6final.log = 1 ∧
    S6final.status = .REVERTED :=
  ⟨rfl, rfl, rfl, rfl, rfl, rfl⟩

/-- C4: in the S2 scenario (parallel root siblings
`[one, two→four→six, three→five]`, all succeed), `resume` dispatches INVOKE
in exactly the level order `["one","two","three","four","five","six"]` and
the transaction ends `DONE`. -/
theorem parallel_level_order_scenario :
    invokeActions S2final.log = ["one", "two", "three", "four", "five", "six"] ∧
    S2final.status = .DONE :=
  ⟨rfl, rfl⟩

/-- C5: in the S9 scenario (`firstMethod(async) → secondMethod`), after
`resume` the `firstMethod` handler has been dispatched exactly once,
`secondMethod` never, and the transaction is `INVOKING`; after
`registerStepSuccess` with `getKeyName(key, "firstMethod", INVOKE)` the
transaction is `DONE` and `secondMethod` has been dispatched. -/
theorem async_invoke_suspends_scenario :
    countDisp S9afterResume.log "firstMethod" .INVOKE = 1 ∧
    countDisp S9afterResume.log "secondMethod" .INVOKE = 0 ∧
    countDisp S9afterResume.log "secondMethod" .COMPENSATE = 0 ∧
    S9afterResume.status = .INVOKING ∧
    S9afterSuccess.status = .DONE ∧
    countDisp S9afterSuccess.log "secondMethod" .INVOKE = 1 ∧
    countDisp S9afterSuccess.log "firstMethod" .INVOKE = 1 :=
  ⟨rfl, rfl, rfl, rfl, rfl, rfl, rfl⟩

/-- C6: in the S8 scenario (`firstMethod → secondMethod(maxRetries 1,
continueOnPermanentFailure)`, `secondMethod` always throws), `resume`
dispatches `firstMethod` once and `secondMethod` twice, ends `DONE` with
`isPartiallyCompleted = true`; and in every run `isPartiallyCompleted` is
true iff at least one node is `PERMANENT_FAILURE_SKIPPED`. -/
theorem continue_on_permanent_failure_scenario :
    invokeActions S8final.log = ["firstMethod", "secondMethod", "secondMethod"] ∧
    S8final.status = .DONE ∧
    S8final.isPartiallyCompleted = true ∧
    ∀ (o : Orchestrator) (h : Handler) (key : String) (p : Value) (ops : List Op),
      ((execScript o h key p ops).isPartiallyCompleted = true ↔
        ∃ a, ((execScript o h key p ops).states a).state =
          .PERMANENT_FAILURE_SKIPPED) :=
  ⟨rfl, rfl, rfl, fun o h key p ops => (inv_execScript o h key p ops).skip_ok⟩

/-- C7: in the S4 scenario (three-step linear flow with `forwardResponse` on
steps 1 and 2, initial payload `{prop: 123}`), step 1 receives `{prop: 123}`,
step 2 receives `{prop: 123, _response: {abc: 1234}}` (step 1's return) and
step 3 receives `{prop: 123, _response: {def: "567"}}` (step 2's return,
never step 1's): each parent's response reaches only its immediate child,
merged alongside the unchanged initial payload. -/
theorem forward_response_scenario :
    invokeData S4final.log =
      [("firstMethod", .obj [("prop", .num 123)]),
       ("secondMethod", .obj [("prop", .num 123),
          ("_response", .obj [("abc", .num 1234)])]),
       ("thirdMethod", .obj [("prop", .num 123),
          ("_response", .obj [("def", .str "567")])])] ∧
    S4final.status = .DONE :=
  ⟨rfl, rfl⟩

/-- C8: in the S5 scenario (root siblings `[one→five, two(noWait)→four,
three(maxRetries 0, throws)]`), the run dispatches INVOKE in exactly the
order `["one","two","three","four"]` — the noWait node's child `four` is
scheduled in the same pass as `two` — and `five` is never dispatched,
because `three`'s permanent failure triggers compensation before `one`'s
child becomes ready. -/
theorem nowait_scheduling_scenario :
    invokeActions S5final.log = ["one", "two", "three", "four"] ∧
    countDisp S5final.log "five" .INVOKE = 0 ∧
    countDisp S5final.log "five" .COMPENSATE = 0 :=
  ⟨rfl, rfl, rfl⟩

/-- C9: calling `registerStepFailure` with the sub-key of a step whose
current state is `IDLE` fails with exactly the literal message
`"Cannot set step failure when status is idle"`, leaving the transaction
unchanged. -/
theorem register_failure_idle_rejected (o : Orchestrator) (h : Handler)
    (subKey : String) (tx : Transaction) (a : String) (ht : HandlerType)
    (hres : resolveKey o tx.idempotencyKey subKey = some (a, ht))
    (hidle : (tx.states a).state = .IDLE) :
    registerStepFailure o h subKey tx =
      .error ("Cannot set step failure when status is idle", tx) := by
  rw [registerStepFailure, hres]
  simp [hidle]

/-- Witness for C9: the S10 scenario's concrete rejection, before `resume`
has dispatched `firstMethod`. -/
theorem register_failure_idle_rejected_witness :
    registerStepFailure asyncO hOk (getKeyName testKey "firstMethod" .INVOKE)
        (beginTransaction testKey .null) =
      .error ("Cannot set step failure when status is idle",
        beginTransaction testKey .null) :=
  register_failure_idle_rejected asyncO hOk _ _ "firstMethod" .INVOKE rfl rfl

/-- C10: a rejected `registerStepFailure` on an all-`IDLE` transaction
carries the transaction back unchanged, and a subsequent `resume` behaves
exactly like a fresh run: the root `firstMethod` is dispatched exactly once,
no compensate handler is dispatched, and the transaction's state is
`INVOKING` — what it would be had `registerStepFailure` never been called. -/
theorem rejected_register_failure_atomicity :
    registerStepFailure asyncO hFailSecond
        (getKeyName testKey "firstMethod" .INVOKE)
        (beginTransaction testKey .null) =
      .error ("Cannot set step failure when status is idle",
        beginTransaction testKey .null) ∧
    resume asyncO hOk
        (carriedTx (registerStepFailure asyncO hOk
          (getKeyName testKey "firstMethod" .INVOKE)
          (beginTransaction testKey .null))) = S9afterResume ∧
    countDisp S9afterResume.log "firstMethod" .INVOKE = 1 ∧
    compCount S9afterResume.log = 0 ∧
    S9afterResume.status = .INVOKING :=
  ⟨rfl, rfl, rfl, rfl, rfl⟩

end Medusa
